import Mathlib

/-!
Shallow embedding of the elemental deployment-engine core of the
rancher-sandbox/cOS-toolkit repository: the partition planning types
(`Partition`, `ElementalPartitions`, `InstallSpec`, `MountSpec`, `DiskSpec`,
`UpgradeSpec`), the install-state file handling (`writeInstallState`,
`loadInstallState`) and the btrfs snapshotter (`Btrfs`), together with
theorems settling the spec claims about them.

Go pointers that may be nil are embedded as `Option`; Go methods returning
`error` become `Except String`; a Go nil-pointer dereference (a crash) is
embedded as `Option.none` on the result of the whole function.  External
collaborators (mounter, backend subvolume tooling, bootloader file writer)
are modelled from the spec where their sources are not part of the
repository snapshot, with explicit failure flags where a claim depends on a
collaborator failing.
-/

deriving instance DecidableEq for Except

namespace Elemental

/-! ## Constants (from the `constants` package source and the `types` package source) -/

/-- From the types package source: firmware identifier "efi". -/
def EFI : String := "efi"

/-- From the types package source: partition table identifier "gpt". -/
def GPT : String := "gpt"

/-- From the types package source: firmware identifier "bios". -/
def BIOS : String := "bios"

/-- From the types package source: partition table identifier "msdos". -/
def MSDOS : String := "msdos"

/-- From the types package source: GPT flag name for the bios boot partition
(the lower-case constant named `bios` in the source). -/
def biosGrubFlag : String := "bios_grub"

/-- From the types package source: flag name for a bootable MSDOS partition
(the lower-case constant named `boot` in the source). -/
def bootFlag : String := "boot"

/-- constants.BiosPartName. -/
def biosPartName : String := "p.bios"

/-- constants.BiosSize, in MiB. -/
def biosSize : Nat := 1

/-- constants.OEMPartName. -/
def oemPartName : String := "p.oem"

/-- constants.OEMLabel. -/
def oemLabel : String := "COS_OEM"

/-- constants.RecoveryPartName. -/
def recoveryPartName : String := "p.recovery"

/-- constants.RecoveryLabel. -/
def recoveryLabel : String := "COS_RECOVERY"

/-- constants.StatePartName. -/
def statePartName : String := "p.state"

/-- constants.StateLabel. -/
def stateLabel : String := "COS_STATE"

/-- constants.PersistentPartName. -/
def persistentPartName : String := "p.persistent"

/-- constants.PersistentLabel. -/
def persistentLabel : String := "COS_PERSISTENT"

/-- constants.SquashFs. -/
def squashFs : String := "squashfs"

/-- constants.SystemLabel. -/
def systemLabel : String := "COS_SYSTEM"

/-- constants.GrubOEMEnv, file name of the GRUB environment file. -/
def grubOEMEnv : String := "grub_oem_env"

/-- Modelled from the spec: constants.BootPartName, the stable lookup name of
the bootloader (ESP) partition; its defining file is not part of the source
snapshot.  The older constants file in the snapshot names it "p.grub". -/
def bootPartName : String := "p.grub"

/-- Modelled from the spec: constants.BootLabel, filesystem label of the
bootloader partition; the older constants file in the snapshot has "COS_GRUB". -/
def bootLabel : String := "COS_GRUB"

/-- Modelled from the spec: constants.GrubFallback, the key `fallback` of the
GRUB environment file (section 4.4 of the spec). -/
def grubFallback : String := "fallback"

/-- Modelled from the spec: constants.GrubPassiveSnapshots, the key
`passive_snapshots` of the GRUB environment file (section 4.4 of the spec). -/
def grubPassiveSnapshots : String := "passive_snapshots"

/-- Modelled from the spec: constants.BtrfsSnapshotterType, the value `btrfs`
of the `snapshotter` key (section 4.4 of the spec). -/
def btrfsSnapshotterType : String := "btrfs"

/-- Modelled from the spec: constants.LoopDeviceSnapshotterType, the value
`loop-device` of the `snapshotter` key (section 4.4 of the spec). -/
def loopDeviceSnapshotterType : String := "loop-device"

/-- Modelled from the spec: constants.BindMode, persistent mode `bind`
(section 3 of the spec). -/
def bindMode : String := "bind"

/-- Modelled from the spec: constants.OverlayMode, persistent mode `overlay`
(section 3 of the spec). -/
def overlayMode : String := "overlay"

/-- Modelled from the spec: constants.Tmpfs, ephemeral type `tmpfs`
(section 3 of the spec). -/
def tmpfsType : String := "tmpfs"

/-- Modelled from the spec: constants.Block, ephemeral type `block`
(section 3 of the spec). -/
def blockType : String := "block"

/-- Modelled from the spec: constants.WorkingImgDir, the transient working
tree directory that the snapshotter bind mounts the snapshot workdir onto. -/
def workingImgDir : String := "/run/elemental/workingtree"

/-! ## Partition data model (types package source) -/

/-- `Partition` struct: a partition with its commonly configurable values,
size in MiB. -/
structure Partition where
  name : String := ""
  filesystemLabel : String := ""
  size : Nat := 0
  fs : String := ""
  flags : List String := []
  mountPoint : String := ""
  path : String := ""
  disk : String := ""
deriving Repr, DecidableEq

/-- `ElementalPartitions` struct: the optional named partition slots.  Go nil
pointers are embedded as `none`. -/
structure ElementalPartitions where
  bios : Option Partition := none
  boot : Option Partition := none
  oem : Option Partition := none
  recovery : Option Partition := none
  state : Option Partition := none
  persistent : Option Partition := none
deriving Repr, DecidableEq

/-- `ElementalPartitions.SetFirmwarePartitions`: sets firmware partitions for
a given firmware and partition table type.  The Go method mutates the
receiver and returns an error; here it returns the updated value. -/
def ElementalPartitions.setFirmwarePartitions (ep : ElementalPartitions)
    (firmware partTable : String) : Except String ElementalPartitions :=
  if firmware = EFI ∧ partTable = GPT then
    match ep.boot with
    | none => .error "nil efi partition"
    | some _ => .ok { ep with bios := none }
  else if firmware = BIOS ∧ partTable = GPT then
    .ok { ep with
            bios := some { filesystemLabel := "", size := biosSize,
                           name := biosPartName, fs := "", mountPoint := "",
                           flags := [biosGrubFlag] },
            boot := none }
  else
    match ep.state with
    | none => .error "nil state partition"
    | some st =>
      .ok { ep with state := some { st with flags := [bootFlag] },
                    boot := none, bios := none }

/-- The loop over `extraPartitions` inside `PartitionsByInstallOrder`:
partitions with size 0 are kept for the last position, unless a last
partition is already pending, in which case they are dropped. -/
def installOrderExtras (acc : List Partition × Option Partition) :
    List Partition → List Partition × Option Partition
  | [] => acc
  | p :: rest =>
    if p.size = 0 then
      match acc.2 with
      | some _ => installOrderExtras acc rest
      | none => installOrderExtras (acc.1, some p) rest
    else installOrderExtras (acc.1 ++ [p], acc.2) rest

/-- `ElementalPartitions.PartitionsByInstallOrder`: sorts partitions
according to the default layout; nil partitions are ignored; the persistent
partition or an extra partition with size 0 is set last.  Go compares
excludes by pointer; partitions are compared by value here. -/
def ElementalPartitions.partitionsByInstallOrder (ep : ElementalPartitions)
    (extraPartitions : List Partition) (excludes : List Partition) :
    List Partition :=
  let inExcludes : Partition → Bool := fun p => excludes.contains p
  let partitions : List Partition := []
  let partitions := match ep.bios with
    | some p => if inExcludes p then partitions else partitions ++ [p]
    | none => partitions
  let partitions := match ep.boot with
    | some p => if inExcludes p then partitions else partitions ++ [p]
    | none => partitions
  let partitions := match ep.oem with
    | some p => if inExcludes p then partitions else partitions ++ [p]
    | none => partitions
  let partitions := match ep.recovery with
    | some p => if inExcludes p then partitions else partitions ++ [p]
    | none => partitions
  let partitions := match ep.state with
    | some p => if inExcludes p then partitions else partitions ++ [p]
    | none => partitions
  let acc : List Partition × Option Partition := match ep.persistent with
    | some p =>
      if inExcludes p then (partitions, none)
      else if p.size = 0 then (partitions, some p)
      else (partitions ++ [p], none)
    | none => (partitions, none)
  let acc := installOrderExtras acc extraPartitions
  acc.1 ++ acc.2.toList

/-! ## Image sources and images -/

/-- Modelled from the spec: the `ImageSource` tagged union with variants
OCI reference, directory, file, channel package and empty (section 3 of the
spec); its defining file is not part of the source snapshot.  A Go nil
`*ImageSource` behaves as the empty variant. -/
inductive ImageSource where
  | oci (ref : String)
  | dir (path : String)
  | file (path : String)
  | channel (pkg : String)
  | empty
deriving Repr, DecidableEq

/-- Modelled from the spec: `ImageSource.IsEmpty` is true exactly on the
empty variant. -/
def ImageSource.isEmpty : ImageSource → Bool
  | .empty => true
  | _ => false

/-- `Image` struct: a file system image with its commonly configurable
values, size in MiB. -/
structure Image where
  file : String := ""
  label : String := ""
  size : Nat := 0
  fs : String := ""
  source : ImageSource := .empty
  mountPoint : String := ""
  loopDevice : String := ""
deriving Repr, DecidableEq

/-! ## Action specs and their Sanitize methods (types package source) -/

/-- `InstallSpec` struct, restricted to the fields its `Sanitize` method and
the claims read or write. -/
structure InstallSpec where
  target : String := ""
  firmware : String := ""
  partTable : String := ""
  partitions : ElementalPartitions := {}
  extraPartitions : List Partition := []
  iso : String := ""
  system : ImageSource := .empty
  recoverySystem : Image := {}
deriving Repr, DecidableEq

/-- `InstallSpec.Sanitize`.  The result is `none` when the Go code panics:
with exactly one zero-sized extra partition, `i.Partitions.Persistent.Size`
is read without a nil check (Go short-circuits `&&`, so the read only
happens when the count is exactly one). -/
def InstallSpec.sanitize (i : InstallSpec) :
    Option (Except String InstallSpec) :=
  if i.system.isEmpty ∧ i.iso = "" then
    some (.error "undefined system source to install")
  else
    match i.partitions.state with
    | none => some (.error "undefined state partition")
    | some st =>
      if st.mountPoint = "" then some (.error "undefined state partition")
      else
        let rsys := if i.recoverySystem.source.isEmpty then
            { i.recoverySystem with source := i.system }
          else i.recoverySystem
        let rsys := if rsys.fs ≠ squashFs ∧ rsys.label = "" then
            { rsys with label := systemLabel }
          else if rsys.fs = squashFs then { rsys with label := "" }
          else rsys
        let extraPartsSizeCheck :=
          (i.extraPartitions.filter (fun p => p.size = 0)).length
        if extraPartsSizeCheck > 1 then
          some (.error "more than one extra partition has its size set to 0. Only one partition can have its size set to 0 which means that it will take all the available disk space in the device")
        else
          let finishSan : Option (Except String InstallSpec) :=
            some (match i.partitions.setFirmwarePartitions i.firmware i.partTable with
              | .ok ep => .ok { i with recoverySystem := rsys, partitions := ep }
              | .error e => .error e)
          if extraPartsSizeCheck = 1 then
            match i.partitions.persistent with
            | none => none
            | some p =>
              if p.size = 0 then
                some (.error "both persistent partition and extra partitions have size set to 0. Only one partition can have its size set to 0 which means that it will take all the available disk space in the device")
              else finishSan
          else finishSan

/-- `VolumeMount` struct. -/
structure VolumeMount where
  mountpoint : String := ""
  device : String := ""
  options : List String := []
  fsType : String := ""
deriving Repr, DecidableEq

/-- `PersistentMounts` struct: settings for which paths to mount as
persistent. -/
structure PersistentMounts where
  mode : String := ""
  paths : List String := []
  volume : VolumeMount := {}
deriving Repr, DecidableEq

/-- `EphemeralMounts` struct: the RW overlay mounted over the immutable
system.  The Go field `Type` is embedded as `typ`. -/
structure EphemeralMounts where
  typ : String := ""
  device : String := ""
  size : String := ""
  paths : List String := []
deriving Repr, DecidableEq

/-- `MountSpec` struct, restricted to the fields its `Sanitize` method and
the claims read or write. -/
structure MountSpec where
  writeFstab : Bool := false
  disable : Bool := false
  sysroot : String := ""
  mode : String := ""
  selinuxRelabel : Bool := false
  ephemeral : EphemeralMounts := {}
  persistent : PersistentMounts := {}
deriving Repr, DecidableEq

/-- Number of occurrences of the path separator (os.PathSeparator on Linux)
in a path, the depth measure used by `MountSpec.Sanitize`. -/
def countSep (s : String) : Nat := s.data.count '/'

/-- The `sort.Slice` call of `MountSpec.Sanitize`: sort paths by ascending
separator count.  Go's sort is unstable; any sort w.r.t. the same order is a
faithful model of the sorted result. -/
def sortPathsByDepth (paths : List String) : List String :=
  paths.insertionSort (fun a b => countSep a ≤ countSep b)

/-- `MountSpec.Sanitize`: validates persistent mode and ephemeral type,
removes empty strings from both path lists and sorts them by ascending
depth. -/
def MountSpec.sanitize (spec : MountSpec) : Except String MountSpec :=
  if spec.persistent.mode ≠ bindMode ∧ spec.persistent.mode ≠ overlayMode then
    .error ("unknown persistent mode: " ++ spec.persistent.mode)
  else
    let pPaths := sortPathsByDepth (spec.persistent.paths.filter (fun s => s ≠ ""))
    if spec.ephemeral.typ ≠ tmpfsType ∧ spec.ephemeral.typ ≠ blockType then
      .error ("unknown overlay type: " ++ spec.ephemeral.typ)
    else
      let ePaths := sortPathsByDepth (spec.ephemeral.paths.filter (fun s => s ≠ ""))
      .ok { spec with
              persistent := { spec.persistent with paths := pPaths },
              ephemeral := { spec.ephemeral with paths := ePaths } }

/-- `UpgradeSpec` struct, restricted to the fields its `Sanitize` method and
the claims read or write. -/
structure UpgradeSpec where
  recoveryUpgrade : Bool := false
  system : ImageSource := .empty
  recoverySystem : Image := {}
  bootloaderUpgrade : Bool := false
  partitions : ElementalPartitions := {}
deriving Repr, DecidableEq

/-- `UpgradeSpec.Sanitize`. -/
def UpgradeSpec.sanitize (u : UpgradeSpec) : Except String UpgradeSpec :=
  match u.partitions.state with
  | none => .error "undefined state partition"
  | some st =>
    if st.mountPoint = "" then .error "undefined state partition"
    else if u.system.isEmpty then .error "undefined upgrade source"
    else
      let recCheckFails :=
        u.recoveryUpgrade ∧
          (u.partitions.recovery = none ∨
            (u.partitions.recovery.map Partition.mountPoint) = some "")
      if recCheckFails then .error "undefined recovery partition"
      else
        let rsys := if u.recoveryUpgrade ∧ u.recoverySystem.source.isEmpty then
            { u.recoverySystem with source := u.system }
          else u.recoverySystem
        let bootCheckFails :=
          u.bootloaderUpgrade ∧
            (u.partitions.boot = none ∨
              (u.partitions.boot.map Partition.mountPoint) = some "")
        if bootCheckFails then .error "undefined Bootloader partition"
        else
          let rsys := if rsys.fs ≠ squashFs ∧ rsys.label = "" then
              { rsys with label := systemLabel }
            else if rsys.fs = squashFs then { rsys with label := "" }
            else rsys
          .ok { u with recoverySystem := rsys }

/-- `DiskSpec` struct, restricted to the fields its `Sanitize` and
`MinDiskSize` methods and the claims read or write. -/
structure DiskSpec where
  size : Nat := 0
  partitions : ElementalPartitions := {}
  expandable : Bool := false
  system : ImageSource := .empty
  recoverySystem : Image := {}
deriving Repr, DecidableEq

/-- `DiskSpec.MinDiskSize`: the minimum size (MiB) required for the disk
given the partitions setup; the first partition is aligned at the first
1 MiB and the last one ends at -1 MiB.  `constants.MinPartSize` is not part
of the source snapshot, so it is taken as the parameter `minPartSize`. -/
def DiskSpec.minDiskSize (d : DiskSpec) (minPartSize : Nat) : Nat :=
  (d.partitions.partitionsByInstallOrder [] []).foldl
    (fun acc part => if part.size = 0 then acc + minPartSize else acc + part.size) 2

/-- `DiskSpec.Sanitize`, parametrized by `constants.MinPartSize` as
`minPartSize`. -/
def DiskSpec.sanitize (d : DiskSpec) (minPartSize : Nat) :
    Except String DiskSpec :=
  if d.system.isEmpty then .error "undefined image source"
  else
    let rsys := if d.recoverySystem.source.isEmpty then
        { d.recoverySystem with source := d.system }
      else d.recoverySystem
    let rsys := if rsys.fs = squashFs then { rsys with label := "" }
      else if rsys.label = "" then { rsys with label := systemLabel }
      else rsys
    let minSize := d.minDiskSize minPartSize
    if d.size ≠ 0 ∧ ¬ d.expandable ∧ d.size ≤ minSize then
      .error ("Requested disk size (" ++ toString d.size ++ "MB) is not enough, it should be, at least, of " ++ toString minSize)
    else .ok { d with recoverySystem := rsys }

/-! ## Install state file handling (types package source) -/

/-- `SnapshotterConfig`, restricted to the snapshotter type and the maximum
number of snapshots.  The Go field `Type` is embedded as `typ`. -/
structure SnapshotterConfig where
  typ : String := ""
  maxSnaps : Nat := 0
deriving Repr, DecidableEq

/-- Modelled from the spec: `NewLoopDevice`, the default snapshotter
configuration preset by `LoadInstallState`; its defining file is not part of
the source snapshot.  The spec names the loop-device snapshotter as the
default with two durable deployments (sections 4.3.1 and 4.4). -/
def NewLoopDevice : SnapshotterConfig :=
  { typ := loopDeviceSnapshotterType, maxSnaps := 2 }

/-- `SystemState` struct: data of a deployed OS image. -/
structure SystemState where
  source : ImageSource := .empty
  digest : String := ""
  active : Bool := false
  label : String := ""
  fs : String := ""
  labels : List (String × String) := []
  date : String := ""
  fromAction : String := ""
deriving Repr, DecidableEq

/-- `PartitionState` struct: installation data of a partition.  The Go field
`RecoveryImage` is a possibly-nil pointer. -/
structure PartitionState where
  fsLabel : String := ""
  recoveryImage : Option SystemState := none
  snapshots : List (Nat × SystemState) := []
deriving Repr, DecidableEq

/-- `InstallState` struct: installation data of the whole system.  The Go
map from partition name to `*PartitionState` is embedded as an association
list. -/
structure InstallState where
  date : String := ""
  partitions : List (String × PartitionState) := []
  snapshotter : SnapshotterConfig := {}
deriving Repr, DecidableEq

/-- Lookup of `installState.Partitions[k]`. -/
def lookupPart (ps : List (String × PartitionState)) (k : String) :
    Option PartitionState :=
  (ps.find? (fun e => e.1 == k)).map (fun e => e.2)

/-- In-place update of `installState.Partitions[k]`. -/
def updatePart (ps : List (String × PartitionState)) (k : String)
    (f : PartitionState → PartitionState) : List (String × PartitionState) :=
  ps.map (fun e => if e.1 == k then (e.1, f e.2) else e)

/-- The content written by `Config.WriteInstallState`: the autogenerated
header comment followed by the YAML-marshalled state.  The YAML layer is an
external collaborator; the marshalled document is embedded as the state
value itself (field order is immaterial in the embedding). -/
structure StateFileContent where
  header : String
  doc : InstallState
deriving Repr, DecidableEq

/-- `Config.WriteInstallState`: marshals the state and prepends the
autogenerated-file header.  The Go method writes the same bytes to the state
and recovery paths; the written content is returned here. -/
def writeInstallState (i : InstallState) : StateFileContent :=
  { header := "# Autogenerated file by elemental client, do not edit\n\n"
    doc := i }

/-- One defaulting block of `LoadInstallState`: when partition `key` is
present with an empty filesystem label, set the label to `lbl`. -/
def applyLabelDefault (st : InstallState) (key lbl : String) : InstallState :=
  match lookupPart st.partitions key with
  | some ps =>
    if ps.fsLabel = "" then
      { st with partitions := (updatePart st.partitions key
          (fun p => { p with fsLabel := lbl })) }
    else st
  | none => st

/-- The defaulting block of `LoadInstallState` for the recovery partition:
besides the filesystem label it defaults the recovery image filesystem and
label.  The result is `none` when the Go code panics: the branch reads
`recovery.RecoveryImage.FS` without a nil check. -/
def applyRecoveryDefault (st : InstallState) : Option InstallState :=
  match lookupPart st.partitions recoveryPartName with
  | some ps =>
    if ps.fsLabel = "" then
      match ps.recoveryImage with
      | none => none
      | some ri =>
        let ri := if ri.fs = "" then { ri with fs := squashFs } else ri
        let ri := if ri.label = "" ∧ ri.fs ≠ squashFs then
            { ri with label := systemLabel }
          else ri
        some { st with partitions := (updatePart st.partitions recoveryPartName
          (fun p => { p with fsLabel := recoveryLabel, recoveryImage := some ri })) }
    else some st
  | none => some st

/-- `Config.LoadInstallState`: unmarshals the state file into a preset value
whose snapshotter defaults to `NewLoopDevice`, then fills missing filesystem
labels with the default labels.  YAML decoding into the preset is modelled
at whole-field granularity: a zero-valued omitempty field is absent from the
document and leaves the preset.  The result is `none` when the Go code
panics (see `applyRecoveryDefault`). -/
def loadInstallState (file : StateFileContent) : Option InstallState :=
  let st : InstallState :=
    { file.doc with
        snapshotter := if file.doc.snapshotter = {} then NewLoopDevice
          else file.doc.snapshotter }
  let st := applyLabelDefault st bootPartName bootLabel
  let st := applyLabelDefault st oemPartName oemLabel
  (applyRecoveryDefault st).map (fun st =>
    applyLabelDefault (applyLabelDefault st statePartName stateLabel)
      persistentPartName persistentLabel)

/-! ## Btrfs snapshotter (pkg/snapshotter/btrfs.go)

The `subvolumeBackend` implementations (btrfs and snapper command drivers)
are not part of the source snapshot; they are modelled from the spec
(section 4.3): snapshot ids are positive, strictly increasing and never
reused, `ListSnapshots` reports the stored ids and the active id,
`DeleteSnapshot` removes one id, `CommitSnapshot` makes the given snapshot
the default, `SnapshotsCleanup` prunes the oldest passive snapshots beyond
the retention bound.  The mounter and the bootloader env writer are external
collaborators; mount calls that a claim depends on carry explicit failure
flags, the remaining filesystem operations are modelled as reliable. -/

/-- `types.Snapshot`: id, read-only path, writable work directory, current
mount point and the in-progress flag. -/
structure Snapshot where
  id : Nat := 0
  path : String := ""
  workDir : String := ""
  mountPoint : String := ""
  inProgress : Bool := false
deriving Repr, DecidableEq

/-- The observable state outside the `Btrfs` struct: the snapshot store on
the state partition, the store's default (active) snapshot id, whether the
workdir bind mount is in place, and the key-value content of the GRUB
environment file at efiDir/grub_oem_env. -/
structure BtrfsWorld where
  snaps : List Nat := []
  storeActive : Nat := 0
  workBindMounted : Bool := false
  grubEnv : List (String × String) := []
deriving Repr, DecidableEq

/-- The `Btrfs` struct fields the embedded methods read or write:
`rootDir`, `efiDir`, `activeSnapshotID` and the retention bound of its
backend. -/
structure Btrfs where
  rootDir : String := ""
  efiDir : String := ""
  activeSnapshotID : Nat := 0
  maxSnaps : Nat := 0
deriving Repr, DecidableEq

/-- `snapshotsList` struct of btrfs.go. -/
structure SnapshotsList where
  ids : List Nat := []
  activeID : Nat := 0
deriving Repr, DecidableEq

/-- Modelled from the spec: `subvolumeBackend.CreateNewSnapshot` creates the
next snapshot (ids strictly increasing from 1, never reused) under
rootDir/.snapshots/id/snapshot; for the first snapshot (baseID = 0) the
work directory is the snapshot path itself. -/
def backendCreateNewSnapshot (w : BtrfsWorld) (rootDir : String)
    (baseID : Nat) : Snapshot × BtrfsWorld :=
  let newID := (w.snaps.foldl max 0) + 1
  let path := rootDir ++ "/.snapshots/" ++ toString newID ++ "/snapshot"
  let workDir := if baseID = 0 then path else path ++ ".workDir"
  (⟨newID, path, workDir, "", false⟩, { w with snaps := w.snaps ++ [newID] })

/-- Modelled from the spec: `subvolumeBackend.ListSnapshots` reports the
stored snapshot ids and the current default (active) id. -/
def backendListSnapshots (w : BtrfsWorld) : SnapshotsList :=
  { ids := w.snaps, activeID := w.storeActive }

/-- Modelled from the spec: `subvolumeBackend.DeleteSnapshot` removes the
given id from the store. -/
def backendDeleteSnapshot (w : BtrfsWorld) (id : Nat) : BtrfsWorld :=
  { w with snaps := w.snaps.erase id }

/-- Modelled from the spec: `subvolumeBackend.CommitSnapshot` sets the given
snapshot as the default one. -/
def backendCommitSnapshot (w : BtrfsWorld) (snapshot : Snapshot) :
    BtrfsWorld :=
  { w with storeActive := snapshot.id }

/-- Modelled from the spec: `subvolumeBackend.SnapshotsCleanup` prunes the
oldest passive snapshots beyond the retention bound; the active snapshot is
never pruned. -/
def backendSnapshotsCleanup (w : BtrfsWorld) (maxSnaps : Nat) : BtrfsWorld :=
  let passives := (w.snaps.filter (fun i => i ≠ w.storeActive)).insertionSort
    (fun a b => a ≤ b)
  let victims := passives.take (w.snaps.length - maxSnaps)
  { w with snaps := w.snaps.filter (fun i => ¬ victims.contains i) }

/-- `Btrfs.GetSnapshots`: errors when uninitialized; with a positive active
snapshot id it lists the backend snapshots and refreshes the cached active
id; otherwise it returns the empty list.  The snapshots-subvolume mount
performed when the subvolume is not yet mounted is the stored
`snapshotsMount` closure, `return nil` by default; it is modelled as
succeeding. -/
def Btrfs.getSnapshots (b : Btrfs) (w : BtrfsWorld) :
    Except String (List Nat) × Btrfs :=
  if b.rootDir = "" then
    (.error "snapshotter not initiated yet, run InitSnapshotter before calling this method", b)
  else if b.activeSnapshotID > 0 then
    let snapList := backendListSnapshots w
    (.ok snapList.ids, { b with activeSnapshotID := snapList.activeID })
  else
    (.ok [], b)

/-- `Btrfs.DeleteSnapshot`: lists the snapshots and, when the given id is
not among them, returns nil without invoking the backend delete.  The last
component reports whether the backend delete was invoked. -/
def Btrfs.deleteSnapshot (b : Btrfs) (w : BtrfsWorld) (id : Nat) :
    Except String Unit × BtrfsWorld × Btrfs × Bool :=
  match b.getSnapshots w with
  | (.error e, bNew) => (.error e, w, bNew, false)
  | (.ok snapshots, bNew) =>
    if ¬ snapshots.contains id then (.ok (), w, bNew, false)
    else (.ok (), backendDeleteSnapshot w id, bNew, true)

/-- `Btrfs.StartTransaction`: creates the next snapshot and bind mounts its
work directory onto the working tree directory.  `bindMountFails` injects
the failure of that mount call; on failure the Go code runs
`_ = b.DeleteSnapshot(newID)` where `newID` is declared and never assigned,
so its zero value 0 is what is passed. -/
def Btrfs.startTransaction (b : Btrfs) (w : BtrfsWorld)
    (bindMountFails : Bool) : Except String Snapshot × BtrfsWorld × Btrfs :=
  let newID : Nat := 0
  if b.rootDir = "" then (.error "uninitialized snapshotter", w, b)
  else
    let created := backendCreateNewSnapshot w b.rootDir b.activeSnapshotID
    let snapshot := created.1
    let w1 := created.2
    if bindMountFails then
      match b.deleteSnapshot w1 newID with
      | (_, w2, b2, _) => (.error "mount failed", w2, b2)
    else
      (.ok { snapshot with mountPoint := workingImgDir, inProgress := true },
        { w1 with workBindMounted := true }, b)

/-- `Btrfs.CloseTransactionOnError`: unmounts the workdir bind mount when
the snapshot is in progress (the unmount error is overwritten by the next
assignment in the Go code) and deletes the given snapshot. -/
def Btrfs.closeTransactionOnError (b : Btrfs) (w : BtrfsWorld)
    (snapshot : Snapshot) (unmountFails : Bool) :
    Except String Unit × BtrfsWorld × Btrfs :=
  let w1 := if snapshot.inProgress ∧ ¬ unmountFails then
      { w with workBindMounted := false }
    else w
  match b.deleteSnapshot w1 snapshot.id with
  | (r, w2, b2, _) => (r, w2, b2)

/-- `Btrfs.setBootloader`: computes the passive snapshot list (newest
first) and the fallback list `0 1 ... len(passives)+1` and writes them with
the snapshotter type to the GRUB environment file; the written key-value set
replaces the modelled file content. -/
def Btrfs.setBootloader (b : Btrfs) (w : BtrfsWorld) :
    Except String Unit × BtrfsWorld × Btrfs :=
  match b.getSnapshots w with
  | (.error e, bNew) => (.error e, w, bNew)
  | (.ok snapshots, bNew) =>
    let ids := snapshots.filter (fun s => s ≠ bNew.activeSnapshotID)
    let passives := ids.reverse.map toString
    let fallbacks := (List.range (ids.length + 2)).map toString
    let envs := [(grubFallback, String.intercalate " " fallbacks),
                 (grubPassiveSnapshots, String.intercalate " " passives),
                 ("snapshotter", btrfsSnapshotterType)]
    (.ok (), { w with grubEnv := envs }, bNew)

/-- Failure flags for the fallible external steps of
`Btrfs.CloseTransaction`: the workdir unmount, the workdir-to-snapshot
mirror, the SELinux relabel and the backend commit. -/
structure CloseFaults where
  unmountFails : Bool := false
  mirrorFails : Bool := false
  relabelFails : Bool := false
  commitFails : Bool := false
deriving Repr, DecidableEq

/-- `Btrfs.CloseTransaction`: refuses snapshots not in progress; unmounts
the workdir, mirrors the workdir into the snapshot (not for the first
snapshot), relabels, commits the snapshot as default, then ignores the
results of `setBootloader` and the retention cleanup.  The deferred handler
deletes the snapshot on every error after the in-progress check. -/
def Btrfs.closeTransaction (b : Btrfs) (w : BtrfsWorld) (snapshot : Snapshot)
    (f : CloseFaults) : Except String Unit × BtrfsWorld × Btrfs :=
  if ¬ snapshot.inProgress then
    (.error "given snapshot is not in progress", w, b)
  else if f.unmountFails then
    match b.deleteSnapshot w snapshot.id with
    | (_, w1, b1, _) =>
      (.error "failed umounting snapshot workdir bind mount", w1, b1)
  else
    let w1 := { w with workBindMounted := false }
    if snapshot.id > 1 ∧ f.mirrorFails then
      match b.deleteSnapshot w1 snapshot.id with
      | (_, w2, b2, _) =>
        (.error "failed syncing working directory with snapshot directory", w2, b2)
    else if f.relabelFails then
      match b.deleteSnapshot w1 snapshot.id with
      | (_, w2, b2, _) => (.error "failed relabelling snapshot path", w2, b2)
    else if f.commitFails then
      match b.deleteSnapshot w1 snapshot.id with
      | (_, w2, b2, _) => (.error "failed committing snapshot", w2, b2)
    else
      let w2 := backendCommitSnapshot w1 snapshot
      match b.setBootloader w2 with
      | (_, w3, b3) =>
        let w4 := backendSnapshotsCleanup w3 b3.maxSnaps
        (.ok (), w4, b3)

/-- Lookup of a key in the modelled GRUB environment file content. -/
def getEnv (env : List (String × String)) (k : String) : Option String :=
  (env.find? (fun e => e.1 == k)).map (fun e => e.2)

/-! ## Concrete scenario inputs used by counterexamples and witnesses -/

/-- A btrfs snapshotter as initialized after a first install: snapshot 1 is
the single, active snapshot. -/
def bScn : Btrfs :=
  { rootDir := "/run/initramfs/elemental-state"
    efiDir := "/run/elemental/efi"
    activeSnapshotID := 1
    maxSnaps := 4 }

/-- The snapshot store matching `bScn`: one snapshot, id 1, active. -/
def wScn : BtrfsWorld := { snaps := [1], storeActive := 1 }

/-- The store after `bScn.startTransaction wScn false`: snapshot 2 created
and its workdir bind mounted. -/
def wStartedScn : BtrfsWorld :=
  { snaps := [1, 2], storeActive := 1, workBindMounted := true }

/-- The in-progress snapshot returned by `bScn.startTransaction wScn false`. -/
def snapScn : Snapshot :=
  { id := 2
    path := "/run/initramfs/elemental-state/.snapshots/2/snapshot"
    workDir := "/run/initramfs/elemental-state/.snapshots/2/snapshot.workDir"
    mountPoint := workingImgDir
    inProgress := true }

/-- A state partition entry with size 0 (grow to fill) and a mount point. -/
def stScnPart : Partition :=
  { name := "p.state", filesystemLabel := "COS_STATE", size := 0,
    fs := "ext4", mountPoint := "/run/elemental/state" }

/-- A persistent partition entry of fixed size 5 MiB. -/
def persScnPart : Partition :=
  { name := "p.persistent", filesystemLabel := "COS_PERSISTENT", size := 5,
    fs := "ext2", mountPoint := "/run/elemental/persistent" }

/-- An install spec whose state partition has size 0 while the persistent
partition has a fixed size; accepted by `InstallSpec.sanitize`. -/
def iScn4 : InstallSpec :=
  { system := .dir "/run/rootfsbase"
    firmware := BIOS
    partTable := MSDOS
    partitions := { state := some stScnPart, persistent := some persScnPart } }

/-- The output of `iScn4.sanitize`: recovery system defaulted, state flagged
bootable. -/
def iScn4s : InstallSpec :=
  { iScn4 with
      recoverySystem := { source := .dir "/run/rootfsbase", label := systemLabel }
      partitions := { state := some { stScnPart with flags := [bootFlag] }
                      persistent := some persScnPart } }

/-- A state partition entry of fixed size 100 MiB with a mount point. -/
def stScnPart2 : Partition :=
  { name := "p.state", size := 100, mountPoint := "/run/elemental/state" }

/-- An install spec with a nil persistent partition and exactly one
zero-sized extra partition: the zero-size consistency check of
`InstallSpec.Sanitize` dereferences the nil persistent pointer. -/
def iScn9 : InstallSpec :=
  { system := .dir "/run/rootfsbase"
    firmware := BIOS
    partTable := MSDOS
    partitions := { state := some stScnPart2 }
    extraPartitions := [{ name := "p.extra", size := 0 }] }

/-- An install spec whose system source is empty but whose iso field is
set; accepted by `InstallSpec.sanitize`. -/
def iScn7 : InstallSpec :=
  { system := .empty
    iso := "/run/initramfs/live/cOS.iso"
    firmware := BIOS
    partTable := MSDOS
    partitions := { state := some stScnPart2 } }

/-- The output of `iScn7.sanitize`. -/
def iScn7s : InstallSpec :=
  { iScn7 with
      recoverySystem := { source := .empty, label := systemLabel }
      partitions := { state := some { stScnPart2 with flags := [bootFlag] } } }

/-- A disk spec with one partition of fixed size 1 MiB, smaller than any
sensible minimum partition size. -/
def dScn5 : DiskSpec :=
  { size := 10
    system := .dir "/run/rootfsbase"
    partitions := { state := some { name := "p.state", size := 1 } } }

/-- A disk spec whose fixed size 3 MiB equals its computed minimum. -/
def dScn5w : DiskSpec :=
  { size := 3
    system := .dir "/run/rootfsbase"
    expandable := false
    partitions := { state := some { name := "p.state", size := 1 } } }

/-- An install state whose state-partition entry has an empty filesystem
label. -/
def sScn6 : InstallState :=
  { date := "2024-01-01"
    partitions := [(statePartName, { fsLabel := "" })]
    snapshotter := NewLoopDevice }

/-- What `loadInstallState` returns for the written `sScn6`: the missing
filesystem label is replaced by the default state label. -/
def sScn6loaded : InstallState :=
  { sScn6 with partitions := [(statePartName, { fsLabel := stateLabel })] }

/-- An install state with all filesystem labels present. -/
def sScn6w : InstallState :=
  { date := "2024-01-01"
    partitions := [(statePartName, { fsLabel := "COS_STATE" }),
                   (oemPartName, { fsLabel := "COS_OEM" })]
    snapshotter := NewLoopDevice }

/-- A persistent partition entry with size 0 (grow to fill). -/
def persZeroScnPart : Partition := { name := "p.persistent", size := 0 }

/-- An install spec whose persistent partition has size 0; accepted by
`InstallSpec.sanitize`. -/
def iScnW4 : InstallSpec :=
  { system := .dir "/run/rootfsbase"
    firmware := BIOS
    partTable := MSDOS
    partitions := { state := some stScnPart2, persistent := some persZeroScnPart } }

/-- The output of `iScnW4.sanitize`. -/
def iScnW4s : InstallSpec :=
  { iScnW4 with
      recoverySystem := { source := .dir "/run/rootfsbase", label := systemLabel }
      partitions := { state := some { stScnPart2 with flags := [bootFlag] }
                      persistent := some persZeroScnPart } }

/-- An elemental partitions value with a boot (ESP) and a state slot. -/
def epScn : ElementalPartitions :=
  { boot := some { name := "p.grub", filesystemLabel := "COS_GRUB", size := 64 }
    state := some stScnPart2 }

/-- `epScn.setFirmwarePartitions EFI GPT`. -/
def epScnEfiR : ElementalPartitions := { epScn with bios := none }

/-- `epScn.setFirmwarePartitions BIOS GPT`. -/
def epScnBiosGptR : ElementalPartitions :=
  { epScn with
      bios := some { filesystemLabel := "", size := biosSize,
                     name := biosPartName, fs := "", mountPoint := "",
                     flags := [biosGrubFlag] }
      boot := none }

/-- `epScn.setFirmwarePartitions BIOS MSDOS`. -/
def epScnBiosMsdosR : ElementalPartitions :=
  { epScn with
      state := some { stScnPart2 with flags := [bootFlag] }
      boot := none, bios := none }

/-- The empty elemental partitions value (all slots nil). -/
def epScnNil : ElementalPartitions := {}

/-- A mount spec with unsorted persistent paths and an empty entry. -/
def mScn8 : MountSpec :=
  { persistent := { mode := bindMode,
                    paths := ["/var/lib", "", "/etc", "/usr/local/bin"] }
    ephemeral := { typ := tmpfsType, paths := ["/srv", ""] } }

/-- The output of `mScn8.sanitize`. -/
def mScn8s : MountSpec :=
  { mScn8 with
      persistent := { mScn8.persistent with
                        paths := ["/etc", "/var/lib", "/usr/local/bin"] }
      ephemeral := { mScn8.ephemeral with paths := ["/srv"] } }

/-! ## Helper lemmas -/

theorem installOrderExtras_snd_some (q : Partition) (extras parts : List Partition) :
    (installOrderExtras (parts, some q) extras).2 = some q := by
  induction extras generalizing parts with
  | nil => rfl
  | cons p rest ih =>
    by_cases hp : p.size = 0 <;> simp [installOrderExtras, hp, ih]

theorem installOrderExtras_snd_none (extras parts : List Partition) :
    (installOrderExtras (parts, none) extras).2
      = extras.find? (fun p => p.size = 0) := by
  induction extras generalizing parts with
  | nil => rfl
  | cons p rest ih =>
    by_cases hp : p.size = 0 <;>
      simp [installOrderExtras, hp, List.find?, installOrderExtras_snd_some, ih]

theorem find?_eq_filter_head? {α : Type} (p : α → Bool) (l : List α) :
    l.find? p = (l.filter p).head? := by
  induction l with
  | nil => rfl
  | cons x rest ih =>
    by_cases hx : p x = true
    · rw [List.find?_cons_of_pos _ hx, List.filter_cons_of_pos hx]
      rfl
    · rw [List.find?_cons_of_neg _ hx, List.filter_cons_of_neg hx, ih]

theorem setFirmwarePartitions_persistent (ep epS : ElementalPartitions)
    (fw pt : String) (h : ep.setFirmwarePartitions fw pt = .ok epS) :
    epS.persistent = ep.persistent := by
  unfold ElementalPartitions.setFirmwarePartitions at h
  split at h
  · cases hb : ep.boot <;> rw [hb] at h <;> simp_all
    subst h; rfl
  · split at h
    · simp only [Except.ok.injEq] at h
      subst h; rfl
    · cases hs : ep.state <;> rw [hs] at h <;> simp_all
      subst h; rfl

theorem sortPathsByDepth_pairwise (l : List String) :
    (sortPathsByDepth l).Pairwise (fun a b => countSep a ≤ countSep b) := by
  have ht : IsTotal String (fun a b => countSep a ≤ countSep b) :=
    ⟨fun a b => Nat.le_total _ _⟩
  have htr : IsTrans String (fun a b => countSep a ≤ countSep b) :=
    ⟨fun a b c hab hbc => Nat.le_trans hab hbc⟩
  exact @List.sorted_insertionSort _ _ _ ht htr l

theorem mem_sortPathsByDepth (l : List String) (x : String) :
    x ∈ sortPathsByDepth l ↔ x ∈ l :=
  (List.perm_insertionSort _ l).mem_iff

theorem applyLabelDefault_skip (st : InstallState) (key lbl : String)
    (h : ∀ ps, lookupPart st.partitions key = some ps → ps.fsLabel ≠ "") :
    applyLabelDefault st key lbl = st := by
  unfold applyLabelDefault
  cases hl : lookupPart st.partitions key with
  | none => rfl
  | some ps => simp [h ps hl]

theorem applyRecoveryDefault_skip (st : InstallState)
    (h : ∀ ps, lookupPart st.partitions recoveryPartName = some ps →
      ps.fsLabel ≠ "") :
    applyRecoveryDefault st = some st := by
  unfold applyRecoveryDefault
  cases hl : lookupPart st.partitions recoveryPartName with
  | none => rfl
  | some ps => simp [h ps hl]

theorem partitionsByInstallOrder_getLast_pers (ep : ElementalPartitions)
    (extras : List Partition) (q : Partition) (hq : ep.persistent = some q)
    (hqz : q.size = 0) :
    (ep.partitionsByInstallOrder extras []).getLast? = some q := by
  unfold ElementalPartitions.partitionsByInstallOrder
  rw [hq]
  simp only [List.contains_nil, Bool.false_eq_true, if_false, hqz, if_true]
  rw [installOrderExtras_snd_some]
  simp

theorem partitionsByInstallOrder_getLast_extra (ep : ElementalPartitions)
    (extras : List Partition) (q : Partition)
    (hq : ep.persistent = none ∨ ∃ pp, ep.persistent = some pp ∧ pp.size ≠ 0)
    (hfind : extras.find? (fun p => p.size = 0) = some q) :
    (ep.partitionsByInstallOrder extras []).getLast? = some q := by
  unfold ElementalPartitions.partitionsByInstallOrder
  rcases hq with hn | ⟨pp, hpp, hppz⟩
  · rw [hn]
    simp only [List.contains_nil, Bool.false_eq_true, if_false]
    rw [installOrderExtras_snd_none, hfind]
    simp
  · rw [hpp]
    simp only [List.contains_nil, Bool.false_eq_true, if_false]
    rw [if_neg hppz]
    rw [installOrderExtras_snd_none, hfind]
    simp

theorem installSpec_sanitize_ok_facts (i iS : InstallSpec)
    (h : i.sanitize = some (.ok iS)) :
    iS.extraPartitions = i.extraPartitions ∧
    iS.partitions.persistent = i.partitions.persistent ∧
    (i.extraPartitions.filter (fun p => p.size = 0)).length ≤ 1 ∧
    ((i.extraPartitions.filter (fun p => p.size = 0)).length = 1 →
      ∃ pp, i.partitions.persistent = some pp ∧ pp.size ≠ 0) := by
  by_cases hc1 : i.system.isEmpty = true ∧ i.iso = ""
  · simp [InstallSpec.sanitize, hc1] at h
  cases hst : i.partitions.state with
  | none => simp [InstallSpec.sanitize, hc1, hst] at h
  | some st =>
  by_cases hmp : st.mountPoint = ""
  · simp [InstallSpec.sanitize, hc1, hst, hmp] at h
  by_cases hgt : (i.extraPartitions.filter (fun p => p.size = 0)).length > 1
  · simp [InstallSpec.sanitize, hc1, hst, hmp, hgt] at h
  by_cases h1 : (i.extraPartitions.filter (fun p => p.size = 0)).length = 1
  · cases hpp : i.partitions.persistent with
    | none => simp [InstallSpec.sanitize, hc1, hst, hmp, hgt, h1, hpp] at h
    | some p =>
      by_cases hpz : p.size = 0
      · simp [InstallSpec.sanitize, hc1, hst, hmp, hgt, h1, hpp, hpz] at h
      cases hsf : i.partitions.setFirmwarePartitions i.firmware i.partTable with
      | error e =>
        simp [InstallSpec.sanitize, hc1, hst, hmp, hgt, h1, hpp, hpz, hsf] at h
      | ok ep =>
        simp [InstallSpec.sanitize, hc1, hst, hmp, hgt, h1, hpp, hpz, hsf] at h
        subst h
        refine ⟨rfl, ?_, by omega, fun hc => ⟨p, rfl, hpz⟩⟩
        show ep.persistent = some p
        rw [setFirmwarePartitions_persistent _ _ _ _ hsf, hpp]
  · cases hsf : i.partitions.setFirmwarePartitions i.firmware i.partTable with
    | error e => simp [InstallSpec.sanitize, hc1, hst, hmp, hgt, h1, hsf] at h
    | ok ep =>
      simp [InstallSpec.sanitize, hc1, hst, hmp, hgt, h1, hsf] at h
      subst h
      refine ⟨rfl, ?_, by omega, fun hc => absurd hc h1⟩
      exact setFirmwarePartitions_persistent _ _ _ _ hsf

theorem foldl_minDiskSize (mp : Nat) (l : List Partition) (acc : Nat) :
    l.foldl (fun acc part => if part.size = 0 then acc + mp else acc + part.size) acc
      = acc + (l.map (fun part => if part.size = 0 then mp else part.size)).sum := by
  induction l generalizing acc with
  | nil => simp
  | cons p rest ih =>
    rw [List.foldl_cons, ih, List.map_cons, List.sum_cons]
    by_cases hp : p.size = 0 <;> simp [hp] <;> omega

/-! ## Claim theorems -/

/-- C1: the spec asks that a `StartTransaction` failing after creating the
new snapshot clean that snapshot up.  The code instead calls
`DeleteSnapshot(newID)` with the never-assigned `newID` (zero value 0),
which is a no-op: from a store holding only snapshot 1, a transaction whose
workdir bind mount fails errors out but leaves the freshly created snapshot
2 behind, so `GetSnapshots` afterwards reports two snapshots instead of the
original one. -/
theorem btrfs_startTransaction_failed_mount_keeps_new_snapshot :
    (Btrfs.getSnapshots bScn wScn).1 = .ok [1] ∧
    (Btrfs.startTransaction bScn wScn true).1 = .error "mount failed" ∧
    (Btrfs.getSnapshots bScn (Btrfs.startTransaction bScn wScn true).2.1).1
      = .ok [1, 2] := by decide

/-- C9: `InstallSpec.Sanitize` crashes (nil-pointer dereference, embedded as
`none`) on a spec with a nil persistent partition and exactly one zero-sized
extra partition, instead of returning a value or an error. -/
theorem installSpec_sanitize_nil_persistent_crash :
    InstallSpec.sanitize iScn9 = none := by decide

/-- C10: `Btrfs.DeleteSnapshot` is a no-op on unknown ids: whenever
`GetSnapshots` succeeds with a list not containing `id`, `DeleteSnapshot id`
returns nil, leaves the store untouched and does not invoke the backend
delete, so a second deletion of an already-deleted id succeeds and changes
nothing. -/
theorem btrfs_deleteSnapshot_unknown_id_noop (b bN : Btrfs) (w : BtrfsWorld)
    (id : Nat) (l : List Nat) (h : b.getSnapshots w = (.ok l, bN))
    (hid : id ∉ l) : b.deleteSnapshot w id = (.ok (), w, bN, false) := by
  unfold Btrfs.deleteSnapshot
  rw [h]
  simp [hid]

theorem btrfs_deleteSnapshot_unknown_id_noop_witness :
    Btrfs.deleteSnapshot bScn wScn 5 = (.ok (), wScn, bScn, false) :=
  btrfs_deleteSnapshot_unknown_id_noop bScn bScn wScn 5 [1] (by decide)
    (by decide)

/-- C3: `SetFirmwarePartitions` maps (efi, gpt) to a nil BIOS slot and a
present Boot slot, (bios, gpt) to a BIOS partition whose flags are exactly
bios_grub with a nil Boot slot, and (bios, msdos) to nil BIOS and Boot slots
with the boot flag on the state partition; it errors when the required Boot
respectively State slot is nil. -/
theorem setFirmwarePartitions_firmware_mapping (ep epS : ElementalPartitions) :
    (ep.setFirmwarePartitions EFI GPT = .ok epS →
      epS.bios = none ∧ epS.boot ≠ none) ∧
    (ep.setFirmwarePartitions BIOS GPT = .ok epS →
      (∃ p, epS.bios = some p ∧ p.flags = [biosGrubFlag]) ∧ epS.boot = none) ∧
    (ep.setFirmwarePartitions BIOS MSDOS = .ok epS →
      epS.bios = none ∧ epS.boot = none ∧
        ∃ st, epS.state = some st ∧ bootFlag ∈ st.flags) ∧
    (ep.boot = none → ∃ e, ep.setFirmwarePartitions EFI GPT = .error e) ∧
    (ep.state = none → ∃ e, ep.setFirmwarePartitions BIOS MSDOS = .error e) := by
  refine ⟨?_, ?_, ?_, ?_, ?_⟩
  · intro h
    unfold ElementalPartitions.setFirmwarePartitions at h
    rw [if_pos ⟨rfl, rfl⟩] at h
    cases hb : ep.boot <;> rw [hb] at h
    · simp at h
    · simp only [Except.ok.injEq] at h
      subst h
      simp [hb]
  · intro h
    unfold ElementalPartitions.setFirmwarePartitions at h
    rw [if_neg (by simp [EFI, BIOS]), if_pos ⟨rfl, rfl⟩] at h
    simp only [Except.ok.injEq] at h
    subst h
    exact ⟨⟨_, rfl, rfl⟩, rfl⟩
  · intro h
    unfold ElementalPartitions.setFirmwarePartitions at h
    rw [if_neg (by simp [EFI, BIOS]), if_neg (by simp [GPT, MSDOS])] at h
    cases hs : ep.state <;> rw [hs] at h
    · simp at h
    · simp only [Except.ok.injEq] at h
      subst h
      exact ⟨rfl, rfl, _, rfl, by simp⟩
  · intro hb
    unfold ElementalPartitions.setFirmwarePartitions
    rw [if_pos ⟨rfl, rfl⟩, hb]
    exact ⟨_, rfl⟩
  · intro hs
    unfold ElementalPartitions.setFirmwarePartitions
    rw [if_neg (by simp [EFI, BIOS]), if_neg (by simp [GPT, MSDOS]), hs]
    exact ⟨_, rfl⟩

theorem setFirmwarePartitions_firmware_mapping_witness :
    (epScnEfiR.bios = none ∧ epScnEfiR.boot ≠ none) ∧
    ((∃ p, epScnBiosGptR.bios = some p ∧ p.flags = [biosGrubFlag]) ∧
      epScnBiosGptR.boot = none) ∧
    (epScnBiosMsdosR.bios = none ∧ epScnBiosMsdosR.boot = none ∧
      ∃ st, epScnBiosMsdosR.state = some st ∧ bootFlag ∈ st.flags) ∧
    (∃ e, epScnNil.setFirmwarePartitions EFI GPT = .error e) ∧
    (∃ e, epScnNil.setFirmwarePartitions BIOS MSDOS = .error e) :=
  ⟨(setFirmwarePartitions_firmware_mapping epScn epScnEfiR).1 (by decide),
   (setFirmwarePartitions_firmware_mapping epScn epScnBiosGptR).2.1 (by decide),
   (setFirmwarePartitions_firmware_mapping epScn epScnBiosMsdosR).2.2.1 (by decide),
   (setFirmwarePartitions_firmware_mapping epScnNil epScnNil).2.2.2.1 (by decide),
   (setFirmwarePartitions_firmware_mapping epScnNil epScnNil).2.2.2.2 (by decide)⟩

/-- C7 counterexample: an install spec whose system source is empty but
whose iso field is non-empty is accepted by `InstallSpec.Sanitize`, so an
empty system source alone does not make install sanitization fail. -/
theorem installSpec_sanitize_accepts_empty_source_with_iso :
    iScn7.system.isEmpty = true ∧ iScn7.iso ≠ "" ∧
    InstallSpec.sanitize iScn7 = some (.ok iScn7s) := by decide

/-- C7 amended: an empty system source is rejected by
`InstallSpec.Sanitize` whenever the iso field is empty too, and by
`UpgradeSpec.Sanitize` unconditionally (both sanitizers are pure, so no
side effect precedes the error). -/
theorem sanitize_rejects_empty_system_source (i : InstallSpec)
    (u : UpgradeSpec) :
    (i.system.isEmpty = true → i.iso = "" →
      i.sanitize = some (.error "undefined system source to install")) ∧
    (u.system.isEmpty = true → ∃ e, u.sanitize = .error e) := by
  constructor
  · intro h1 h2
    unfold InstallSpec.sanitize
    rw [if_pos ⟨h1, h2⟩]
  · intro hu
    unfold UpgradeSpec.sanitize
    split
    · exact ⟨_, rfl⟩
    · split
      · exact ⟨_, rfl⟩
      · exact ⟨_, rfl⟩

theorem sanitize_rejects_empty_system_source_witness :
    (InstallSpec.sanitize { system := .empty }
      = some (.error "undefined system source to install")) ∧
    ∃ e, UpgradeSpec.sanitize { system := .empty } = .error e :=
  ⟨(sanitize_rejects_empty_system_source { system := .empty }
      { system := .empty }).1 rfl rfl,
   (sanitize_rejects_empty_system_source { system := .empty }
      { system := .empty }).2 rfl⟩

/-- C5 counterexample: for a disk with one partition of fixed size 1 MiB
and a minimum partition size of 64 MiB, `MinDiskSize` returns 3 MiB (it
adds the partition size itself), not the 66 MiB that the claimed formula
2 + max(size, MinPartSize) would give. -/
theorem diskSpec_minDiskSize_counterexample :
    DiskSpec.minDiskSize dScn5 64 = 3 ∧
    2 + ((dScn5.partitions.partitionsByInstallOrder [] []).map
      (fun p => max p.size 64)).sum = 66 ∧ (3 : Nat) ≠ 66 := by decide

/-- C5 amended: `MinDiskSize` returns 2 MiB plus the sum over the ordered
partitions of the partition size, where a zero size counts as the minimum
partition size; `DiskSpec.Sanitize` rejects every spec with a non-zero
fixed size, a false expandable flag and a size not strictly larger than
that minimum. -/
theorem diskSpec_minDiskSize_formula_and_reject (mp : Nat) (d : DiskSpec) :
    d.minDiskSize mp
      = 2 + ((d.partitions.partitionsByInstallOrder [] []).map
          (fun part => if part.size = 0 then mp else part.size)).sum ∧
    (d.size ≠ 0 → d.expandable = false → d.size ≤ d.minDiskSize mp →
      ∃ e, d.sanitize mp = .error e) := by
  constructor
  · unfold DiskSpec.minDiskSize
    exact foldl_minDiskSize mp _ 2
  · intro h1 h2 h3
    unfold DiskSpec.sanitize
    by_cases hs : d.system.isEmpty = true
    · rw [if_pos hs]
      exact ⟨_, rfl⟩
    · rw [if_neg hs, if_pos ⟨h1, by simp [h2], h3⟩]
      exact ⟨_, rfl⟩

theorem diskSpec_minDiskSize_formula_and_reject_witness :
    ∃ e, DiskSpec.sanitize dScn5w 64 = .error e :=
  (diskSpec_minDiskSize_formula_and_reject 64 dScn5w).2 (by decide) rfl
    (by decide)

/-- C2 counterexample: after a successful `CloseTransaction` that commits
snapshot 2 over passive snapshot 1, the `fallback` key of the written GRUB
environment file is the all-numeric "0 1 2", not "0 1 recovery": the final
element is a numeral, never the literal word recovery. -/
theorem btrfs_closeTransaction_fallback_counterexample :
    Btrfs.startTransaction bScn wScn false = (.ok snapScn, wStartedScn, bScn) ∧
    (Btrfs.closeTransaction bScn wStartedScn snapScn {}).1 = .ok () ∧
    getEnv ((Btrfs.closeTransaction bScn wStartedScn snapScn {}).2.1).grubEnv
      grubFallback = some "0 1 2" ∧
    some "0 1 2" ≠ some "0 1 recovery" := by decide

/-- C4 counterexample: an install spec whose state partition has size 0 and
whose persistent partition has size 5 is accepted by `Sanitize`, yet
`PartitionsByInstallOrder` keeps the zero-sized state partition in its
fixed position, first and not last. -/
theorem installSpec_zero_size_state_not_last :
    InstallSpec.sanitize iScn4 = some (.ok iScn4s) ∧
    iScn4s.partitions.partitionsByInstallOrder iScn4s.extraPartitions []
      = [{ stScnPart with flags := [bootFlag] }, persScnPart] ∧
    ({ stScnPart with flags := [bootFlag] } : Partition).size = 0 ∧
    (iScn4s.partitions.partitionsByInstallOrder iScn4s.extraPartitions []).getLast?
      ≠ some { stScnPart with flags := [bootFlag] } := by decide

/-- C6 counterexample: an install state whose state-partition entry has an
empty filesystem label does not round trip: `LoadInstallState` fills in the
default label, so the loaded state differs from the written one (same date,
same field set). -/
theorem installState_roundtrip_counterexample :
    loadInstallState (writeInstallState sScn6) = some sScn6loaded ∧
    sScn6loaded ≠ sScn6 ∧ sScn6loaded.date = sScn6.date := by decide

/-- C2 amended: after a successful btrfs `CloseTransaction` on an
initialized snapshotter, the `fallback` key of the written GRUB environment
file is the space-separated numeral sequence 0, 1, ..., N+1 where N is the
number of passive snapshots: 0 denotes the active entry, 1..N the passives
and the final numeral N+1 denotes the recovery entry; the literal word
recovery is never written. -/
theorem btrfs_closeTransaction_numeric_fallback (b bI : Btrfs)
    (w wI : BtrfsWorld) (snap : Snapshot)
    (hroot : b.rootDir ≠ "") (hact : 0 < b.activeSnapshotID)
    (h : b.closeTransaction w snap {} = (.ok (), wI, bI)) :
    getEnv wI.grubEnv grubFallback =
      some (String.intercalate " "
        ((List.range ((w.snaps.filter (fun s => s ≠ snap.id)).length + 2)).map
          toString)) := by
  unfold Btrfs.closeTransaction at h
  by_cases hip : snap.inProgress = true
  · simp [hip] at h
    obtain ⟨hw, hb⟩ := h
    subst hw
    simp [Btrfs.setBootloader, Btrfs.getSnapshots, hroot, hact,
      backendCommitSnapshot, backendListSnapshots, backendSnapshotsCleanup,
      getEnv, grubFallback]
  · simp [hip] at h

theorem btrfs_closeTransaction_numeric_fallback_witness :
    getEnv ((Btrfs.closeTransaction bScn wStartedScn snapScn {}).2.1).grubEnv
        grubFallback
      = some (String.intercalate " "
          ((List.range ((wStartedScn.snaps.filter
              (fun s => s ≠ snapScn.id)).length + 2)).map toString)) :=
  btrfs_closeTransaction_numeric_fallback bScn
    (Btrfs.closeTransaction bScn wStartedScn snapScn {}).2.2 wStartedScn
    (Btrfs.closeTransaction bScn wStartedScn snapScn {}).2.1 snapScn
    (by decide) (by decide) (by decide)

/-- C4 amended: for every install spec accepted by `Sanitize`, at most one
of the persistent partition and the extra partitions has size 0, and when
one does it is the last element of `PartitionsByInstallOrder`; zero-sized
partitions in the other slots (for example state) keep their fixed position
instead of being moved last. -/
theorem installSpec_accepted_zero_size_last (i iS : InstallSpec)
    (h : i.sanitize = some (.ok iS)) :
    ((iS.partitions.persistent.toList ++ iS.extraPartitions).filter
        (fun p => p.size = 0)).length ≤ 1 ∧
    ∀ q, (iS.partitions.persistent.toList ++ iS.extraPartitions).filter
        (fun p => p.size = 0) = [q] →
      (iS.partitions.partitionsByInstallOrder iS.extraPartitions []).getLast?
        = some q := by
  obtain ⟨hx, hper, hle, hone⟩ := installSpec_sanitize_ok_facts i iS h
  rw [hx, hper]
  cases hpp : i.partitions.persistent with
  | none =>
    simp only [Option.toList_none, List.nil_append]
    refine ⟨hle, fun q hq => ?_⟩
    apply partitionsByInstallOrder_getLast_extra
    · left
      rw [hper, hpp]
    · rw [find?_eq_filter_head?, hq]
      rfl
  | some pp =>
    by_cases hpz : pp.size = 0
    · have hlen1 : (i.extraPartitions.filter (fun p => p.size = 0)).length ≠ 1 := by
        intro hc
        obtain ⟨pp2, hpp2, hpz2⟩ := hone hc
        rw [hpp] at hpp2
        exact hpz2 (by cases hpp2; exact hpz)
      have hext : i.extraPartitions.filter (fun p => p.size = 0) = [] :=
        List.length_eq_zero.mp (by omega)
      refine ⟨by simp [List.filter_append, List.filter_cons, hpz, hext],
        fun q hq => ?_⟩
      simp [List.filter_append, List.filter_cons, hpz, hext] at hq
      cases hq
      exact partitionsByInstallOrder_getLast_pers _ _ _ (hper.trans hpp) hpz
    · refine ⟨by simpa [List.filter_append, List.filter_cons, hpz] using hle,
        fun q hq => ?_⟩
      simp only [List.filter_append, Option.toList_some] at hq
      rw [List.filter_cons_of_neg (by simpa using hpz), List.filter_nil,
        List.nil_append] at hq
      apply partitionsByInstallOrder_getLast_extra
      · right
        exact ⟨pp, hper.trans hpp, hpz⟩
      · rw [find?_eq_filter_head?, hq]
        rfl

theorem installSpec_accepted_zero_size_last_witness :
    (iScnW4s.partitions.partitionsByInstallOrder iScnW4s.extraPartitions
      []).getLast? = some persZeroScnPart :=
  (installSpec_accepted_zero_size_last iScnW4 iScnW4s (by decide)).2
    persZeroScnPart (by decide)

/-- C6 amended: `LoadInstallState` after `WriteInstallState` is the
identity on every install state whose snapshotter configuration is not the
zero value and whose partition entries for the boot, oem, recovery, state
and persistent slots carry non-empty filesystem labels; in general the load
step replaces missing labels by the default labels. -/
theorem installState_roundtrip_identity (s : InstallState)
    (hsn : s.snapshotter ≠ {})
    (hb : ∀ ps, lookupPart s.partitions bootPartName = some ps → ps.fsLabel ≠ "")
    (ho : ∀ ps, lookupPart s.partitions oemPartName = some ps → ps.fsLabel ≠ "")
    (hr : ∀ ps, lookupPart s.partitions recoveryPartName = some ps → ps.fsLabel ≠ "")
    (hst : ∀ ps, lookupPart s.partitions statePartName = some ps → ps.fsLabel ≠ "")
    (hp : ∀ ps, lookupPart s.partitions persistentPartName = some ps → ps.fsLabel ≠ "") :
    loadInstallState (writeInstallState s) = some s := by
  unfold loadInstallState writeInstallState
  rw [if_neg hsn]
  have hself : { s with snapshotter := s.snapshotter } = s := rfl
  rw [hself]
  simp only [applyLabelDefault_skip s _ _ hb, applyLabelDefault_skip s _ _ ho,
    applyRecoveryDefault_skip s hr, Option.map_some',
    applyLabelDefault_skip s _ _ hst, applyLabelDefault_skip s _ _ hp]

theorem installState_roundtrip_identity_witness :
    loadInstallState (writeInstallState sScn6w) = some sScn6w :=
  installState_roundtrip_identity sScn6w (by decide)
    (by intro ps hps
        simp [lookupPart, sScn6w, bootPartName, statePartName, oemPartName] at hps)
    (by intro ps hps
        simp [lookupPart, sScn6w, oemPartName, statePartName] at hps
        simp [hps.symm])
    (by intro ps hps
        simp [lookupPart, sScn6w, recoveryPartName, statePartName, oemPartName] at hps)
    (by intro ps hps
        simp [lookupPart, sScn6w, statePartName, oemPartName] at hps
        simp [hps.symm])
    (by intro ps hps
        simp [lookupPart, sScn6w, persistentPartName, statePartName, oemPartName] at hps)

/-- C8: after a successful `MountSpec.Sanitize`, the persistent paths list
contains no empty strings and is sorted by non-decreasing number of path
separators, and likewise the ephemeral paths list. -/
theorem mountSpec_sanitize_paths_clean_and_sorted (spec specS : MountSpec)
    (h : spec.sanitize = .ok specS) :
    ("" ∉ specS.persistent.paths ∧
      specS.persistent.paths.Pairwise (fun a b => countSep a ≤ countSep b)) ∧
    ("" ∉ specS.ephemeral.paths ∧
      specS.ephemeral.paths.Pairwise (fun a b => countSep a ≤ countSep b)) := by
  unfold MountSpec.sanitize at h
  split at h
  · exact absurd h (by simp)
  · split at h
    · exact absurd h (by simp)
    · simp only [Except.ok.injEq] at h
      subst h
      refine ⟨⟨?_, sortPathsByDepth_pairwise _⟩, ⟨?_, sortPathsByDepth_pairwise _⟩⟩
      · intro hm
        rw [mem_sortPathsByDepth] at hm
        simp at hm
      · intro hm
        rw [mem_sortPathsByDepth] at hm
        simp at hm

theorem mountSpec_sanitize_paths_clean_and_sorted_witness :
    ("" ∉ mScn8s.persistent.paths ∧
      mScn8s.persistent.paths.Pairwise (fun a b => countSep a ≤ countSep b)) ∧
    ("" ∉ mScn8s.ephemeral.paths ∧
      mScn8s.ephemeral.paths.Pairwise (fun a b => countSep a ≤ countSep b)) :=
  mountSpec_sanitize_paths_clean_and_sorted mScn8 mScn8s (by decide)

end Elemental
